import Mathlib

/-
  Shallow embedding of the ntsc TypeScript lexer (src/compiler/lexer/Lexer.cpp,
  src/compiler/main.cpp Token/TokenKind, UserOpts strict-mode flag).

  Modelling conventions:
  * The source buffer is a `List Nat` of byte values, without the sentinel.
    `ptr` becomes a position index `pos`; `ptr == endPtr` becomes
    `pos = buf.length`.  Reads at or past the end yield the sentinel value 0
    (`byteAt`), matching the NUL-terminated llvm::MemoryBuffer.
  * Loops that the C++ cannot bound (the `goto beginLexer` restart, the
    comment and string scanner loops) take explicit fuel; exhausted fuel is
    reported as a `spin` result carrying the state reached so far.
  * Diagnostics are recorded as a list of `DiagKind` in the state, in emission
    order, next to the sticky `failed` flag, instead of printing to stderr.
  * `Token&` out-parameter mutation becomes a result value: `LexResult.ret`
    means the function returned after a `tok.set(...)` call, while
    `LexResult.fallOff` means control fell off the end of the dispatch switch
    without any `tok.set` call, leaving the caller's token slot untouched.
-/

namespace ntsc

inductive TokenKind where
  | FileEnd
  | LeftCurly | RightCurly | LeftParenthasis | RightParenthasis
  | LeftSquare | RightSquare
  | Dot | DotDotDot | Semicolon | Comma
  | Less | Greater | LessEquals | GreaterEquals
  | EqualsEquals | ExclaimationEquals | EqualsEqualsEquals
  | ExclaimationEqualsEquals | EqualsGreater
  | Plus | Minus | AsteriskAsterisk | Asterisk | Slash | Percent
  | PlusPlus | MinusMinus
  | LessLess | LessSlash | GreaterGreater | GreaterGreaterGreater
  | Ampersand | Bar | Caret | Exclaimation | Tilde
  | AmpersandAmpersand | BarBar
  | Question | QuestionQuestion | QuestionDot | Colon
  | Equals | PlusEquals | MinusEquals | AsteriskEquals
  | AsteriskAsteriskEquals | SlashEquals | PercentEquals
  | LessLessEquals | GreaterGreaterEquals | GreaterGreaterGreaterEquals
  | AmpersandEquals | BarEquals | CaretEquals
  | BarBarEquals | AmpersandAmpersandEquals | QuestionQuestionEquals
  | ZeroLiteral | ZeroBigIntLiteral
  | DecimalLiteral | DecimalBigIntLiteral
  | FloatLiteral
  | HexLiteral | HexBigIntLiteral
  | OctalLiteral | OctalBigIntLiteral
  | BinaryLiteral | BinaryBigIntLiteral
  | StringLiteral
deriving DecidableEq, Repr

structure Token where
  kind : TokenKind
  line : Nat
  col : Nat
  text : List Nat
  afterLineTerminator : Bool
deriving DecidableEq, Repr

/-- The four-argument `Token::set` overload: writes kind, line, col and
the afterLineTerminator flag; the `text` field is not written. -/
def Token.set4 (t : Token) (kind : TokenKind) (line col : Nat)
    (afterLineTerminator : Bool) : Token :=
  { t with kind := kind, line := line, col := col,
           afterLineTerminator := afterLineTerminator }

/-- The five-argument `Token::set` overload: writes every field, including
the borrowed lexeme `text`. -/
def Token.set5 (t : Token) (kind : TokenKind) (line col : Nat)
    (afterLineTerminator : Bool) (text : List Nat) : Token :=
  { t with kind := kind, line := line, col := col,
           afterLineTerminator := afterLineTerminator, text := text }

/-- The kinds of diagnostics the lexer emits to stderr. -/
inductive DiagKind where
  | unexpectedNull
  | invalidUTF8
  | invalidNumericSeparator
  | malformedRadixInt
  | legacyOctalStrict
  | eofInMultiLineComment
deriving DecidableEq, Repr

/-- Scanner state: buffer bytes (sans sentinel), current position
(`ptr - bufPtr`), 1-based line/column, the sticky `lexerFailed` flag, the
read-only `UserOpts::strictModeEnabled` configuration, and the list of
diagnostics emitted so far (in source order). -/
structure LexState where
  buf : List Nat
  pos : Nat
  line : Nat
  col : Nat
  failed : Bool
  strict : Bool
  diags : List DiagKind
deriving DecidableEq, Repr

/-- Reading `ptr[i]`: bytes at or past `endPtr` read as the sentinel 0. -/
def byteAt (buf : List Nat) (i : Nat) : Nat := buf.getD i 0

/-- A borrowed lexeme `{startPtr, len}` out of the buffer. -/
def lexeme (buf : List Nat) (start len : Nat) : List Nat :=
  (buf.drop start).take len

/-- Result of a call to `lexToken` (and of the literal sub-scanners). -/
inductive LexResult where
  /-- The function returned after writing the token slot via `tok.set`. -/
  | ret (tok : Token) (st : LexState)
  /-- Control fell off the end of the dispatch switch: the function returned
  without any `tok.set` call, so the caller's slot still holds `tok`. -/
  | fallOff (tok : Token) (st : LexState)
  /-- Fuel exhausted: the code loops without returning (models divergence). -/
  | spin (tok : Token) (st : LexState)
deriving DecidableEq, Repr

/-- Whether the run ended with the token slot written by this call. -/
def LexResult.isWritten : LexResult → Bool
  | .ret _ _ => true
  | .fallOff _ _ => false
  | .spin _ _ => false

/-- The scanner state at the end of the run. -/
def LexResult.state : LexResult → LexState
  | .ret _ st => st
  | .fallOff _ st => st
  | .spin _ st => st

/-- The token slot contents at the end of the run. -/
def LexResult.token : LexResult → Token
  | .ret t _ => t
  | .fallOff t _ => t
  | .spin t _ => t

/-- Lexer::isHorizontalWhitespace: TAB, VT, FF, SPACE. -/
def isHorizontalWhitespace (b : Nat) : Bool :=
  b == 0x9 || b == 0xb || b == 0xc || b == 0x20

/-- Lexer::isAscii. -/
def isAscii (b : Nat) : Bool := b < 0x80

/-- The isDigit macro: unsigned (x - '0') < 10. -/
def isDigitB (b : Nat) : Bool := 48 ≤ b && b ≤ 57

/-- The isOctalDigit macro: unsigned (x - '0') < 8. -/
def isOctalDigitB (b : Nat) : Bool := 48 ≤ b && b ≤ 55

/-- The isBinaryDigit macro. -/
def isBinaryDigitB (b : Nat) : Bool := b == 48 || b == 49

/-- llvm::isHexDigit: 0-9, a-f, A-F. -/
def isHexDigitB (b : Nat) : Bool :=
  (48 ≤ b && b ≤ 57) || (97 ≤ b && b ≤ 102) || (65 ≤ b && b ≤ 70)

/-- Lexer::diagnoseUnexpectedNull: prints, sets the sticky flag, then
increments line and col.  Note: it does NOT advance the pointer. -/
def diagnoseUnexpectedNull (st : LexState) : LexState :=
  { st with diags := st.diags ++ [.unexpectedNull], failed := true,
            line := st.line + 1, col := st.col + 1 }

/-- Lexer::diagnoseInvalidUTF8: prints, sets the sticky flag, skips the
offending byte without moving the column. -/
def diagnoseInvalidUTF8 (st : LexState) : LexState :=
  { st with diags := st.diags ++ [.invalidUTF8], failed := true,
            pos := st.pos + 1 }

/-- Lexer::diagnoseInvalidNumericSeparator: the message pre-increments the
member `col`; the pointer is not moved. -/
def diagnoseInvalidNumericSeparator (st : LexState) : LexState :=
  { st with diags := st.diags ++ [.invalidNumericSeparator], failed := true,
            col := st.col + 1 }

/-- Lexer::diagnoseMalformedRadixInt: prints and sets the sticky flag; the
pointer is not moved. -/
def diagnoseMalformedRadixInt (st : LexState) : LexState :=
  { st with diags := st.diags ++ [.malformedRadixInt], failed := true }

/-- Length of the run of horizontal whitespace starting at `p`. -/
def wsRun (buf : List Nat) (p : Nat) : Nat :=
  ((buf.drop p).takeWhile isHorizontalWhitespace).length

/-- The `while (isHorizontalWhitespace(ptr[0])) { ++col; ++ptr; }` loop at
the top of `lexToken`, as a closed form. -/
def skipHorizWs (st : LexState) : LexState :=
  let n := wsRun st.buf st.pos
  { st with pos := st.pos + n, col := st.col + n }

/-- Length of the run of decimal digits starting at `p`. -/
def digitRun (buf : List Nat) (p : Nat) : Nat :=
  ((buf.drop p).takeWhile isDigitB).length

/-- A UTF-8 continuation byte, 0x80..0xBF. -/
def isContByte (b : Nat) : Bool := decide (0x80 ≤ b) && decide (b ≤ 0xBF)

/-- llvm getNumBytesForUTF8: trailingBytesForUTF8 table value plus one. -/
def seqLen (b : Nat) : Nat :=
  if b < 0xC0 then 1 else if b < 0xE0 then 2 else if b < 0xF0 then 3
  else if b < 0xF8 then 4 else if b < 0xFC then 5 else 6

/-- The inner switch of llvm isLegalUTF8 constraining the first continuation
byte by the lead byte (applies only to sequences of length at least two). -/
def utf8FirstContOk (b0 b1 : Nat) : Bool :=
  if b0 = 0xE0 then decide (0xA0 ≤ b1)
  else if b0 = 0xED then decide (b1 ≤ 0x9F)
  else if b0 = 0xF0 then decide (0x90 ≤ b1)
  else if b0 = 0xF4 then decide (b1 ≤ 0x8F)
  else decide (0x80 ≤ b1)

/-- llvm isLegalUTF8 for the `len`-byte sequence starting at `pos`. -/
def utf8Legal (buf : List Nat) (pos len : Nat) : Bool :=
  let b0 := byteAt buf pos
  let b1 := byteAt buf (pos + 1)
  let b2 := byteAt buf (pos + 2)
  let b3 := byteAt buf (pos + 3)
  (match len with
   | 1 => true
   | 2 => isContByte b1 && utf8FirstContOk b0 b1
   | 3 => isContByte b2 && isContByte b1 && utf8FirstContOk b0 b1
   | 4 => isContByte b3 && isContByte b2 && isContByte b1 && utf8FirstContOk b0 b1
   | _ => false) &&
  !(decide (0x80 ≤ b0) && decide (b0 < 0xC2)) && decide (b0 ≤ 0xF4)

/-- llvm convertUTF8Sequence with strictConversion against `sourceEnd = endPos`:
`some (codepoint, bytesConsumed)` on success (the pointer advances by the
sequence length), `none` on sourceExhausted or sourceIllegal (the pointer is
left where it was). -/
def utf8DecodeStrict (buf : List Nat) (endPos pos : Nat) :
    Option (Nat × Nat) :=
  if pos = endPos then none
  else
    let b0 := byteAt buf pos
    let size := seqLen b0
    if endPos < pos + size then none
    else if utf8Legal buf pos size then
      let cp :=
        match size with
        | 1 => b0
        | 2 => (b0 - 0xC0) * 0x40 + (byteAt buf (pos + 1) - 0x80)
        | 3 => (b0 - 0xE0) * 0x1000 + (byteAt buf (pos + 1) - 0x80) * 0x40 +
               (byteAt buf (pos + 2) - 0x80)
        | _ => (b0 - 0xF0) * 0x40000 + (byteAt buf (pos + 1) - 0x80) * 0x1000 +
               (byteAt buf (pos + 2) - 0x80) * 0x40 + (byteAt buf (pos + 3) - 0x80)
      some (cp, size)
    else none

/-- The isUnicodeLT macro: LS U+2028 or PS U+2029. -/
def isUnicodeLT (cp : Nat) : Bool := cp == 0x2028 || cp == 0x2029

/-- Result of Lexer::lexSingleLineComment: `cont` models returning true
(keep lexing), `done` models returning false with the token already set. -/
inductive SLCResult where
  | cont (st : LexState)
  | done (tok : Token) (st : LexState)
  | spin (st : LexState)
deriving DecidableEq, Repr

/-- Result of Lexer::lexMultiLineComment; `cont` also carries the
`afterLineTerminator` flag, which that method mutates by reference. -/
inductive MLCResult where
  | cont (st : LexState) (afterLineTerminator : Bool)
  | done (tok : Token) (st : LexState)
  | spin (st : LexState)
deriving DecidableEq, Repr

/-- The scanning loop of Lexer::lexSingleLineComment. -/
def slcLoop : Nat → Token → LexState → Bool → SLCResult
  | 0, _, st, _ => .spin st
  | fuel + 1, tok, st, alt =>
    let b := byteAt st.buf st.pos
    if b = 0 then
      if st.pos = st.buf.length then
        .done (tok.set4 .FileEnd st.line st.col alt) st
      else slcLoop fuel tok (diagnoseUnexpectedNull st) alt
    else if b = 10 then
      .cont { st with line := st.line + 1, col := 1, pos := st.pos + 1 }
    else if b = 13 then
      let st := { st with line := st.line + 1, col := 1 }
      if byteAt st.buf (st.pos + 1) = 10 then .cont { st with pos := st.pos + 2 }
      else .cont { st with pos := st.pos + 1 }
    else if isAscii b then
      slcLoop fuel tok { st with pos := st.pos + 1, col := st.col + 1 } alt
    else
      match utf8DecodeStrict st.buf st.buf.length st.pos with
      | none => slcLoop fuel tok (diagnoseInvalidUTF8 st) alt
      | some (cp, size) =>
        let st := { st with pos := st.pos + size }
        if isUnicodeLT cp then .cont { st with line := st.line + 1, col := 1 }
        else slcLoop fuel tok { st with col := st.col + 1 } alt

/-- Lexer::lexSingleLineComment: consume the two slashes, then scan to the
next line terminator (returning `cont`) or to end of buffer (emitting the
FileEnd token and returning `done`). -/
def lexSingleLineComment (fuel : Nat) (tok : Token) (st : LexState)
    (alt : Bool) : SLCResult :=
  slcLoop fuel tok { st with pos := st.pos + 2, col := st.col + 2 } alt

/-- The scanning loop of Lexer::lexMultiLineComment. -/
def mlcLoop : Nat → Token → LexState → Bool → MLCResult
  | 0, _, st, _ => .spin st
  | fuel + 1, tok, st, alt =>
    let b := byteAt st.buf st.pos
    if b = 42 then
      if byteAt st.buf (st.pos + 1) = 47 then
        .cont { st with pos := st.pos + 2, col := st.col + 2 } alt
      else mlcLoop fuel tok { st with pos := st.pos + 1, col := st.col + 1 } alt
    else if b = 0 then
      if st.pos = st.buf.length then
        -- The unterminated-comment diagnostic is printed but, unlike the
        -- other diagnostics, the code does not set lexerFailed here.
        let st := { st with diags := st.diags ++ [.eofInMultiLineComment] }
        .done (tok.set4 .FileEnd st.line st.col alt) st
      else mlcLoop fuel tok (diagnoseUnexpectedNull st) alt
    else if b = 10 then
      mlcLoop fuel tok { st with line := st.line + 1, col := 1, pos := st.pos + 1 } true
    else if b = 13 then
      let st := { st with line := st.line + 1, col := 1 }
      if byteAt st.buf (st.pos + 1) = 10 then
        mlcLoop fuel tok { st with pos := st.pos + 2 } true
      else mlcLoop fuel tok { st with pos := st.pos + 1 } true
    else if isAscii b then
      mlcLoop fuel tok { st with pos := st.pos + 1, col := st.col + 1 } alt
    else
      match utf8DecodeStrict st.buf st.buf.length st.pos with
      | none => mlcLoop fuel tok (diagnoseInvalidUTF8 st) alt
      | some (cp, size) =>
        let st := { st with pos := st.pos + size }
        if isUnicodeLT cp then
          mlcLoop fuel tok { st with line := st.line + 1, col := 1 } true
        else mlcLoop fuel tok { st with col := st.col + 1 } alt

/-- Lexer::lexMultiLineComment: consume the comment opening, then scan to
the closing star-slash (`cont`) or to end of buffer (`done` with FileEnd). -/
def lexMultiLineComment (fuel : Nat) (tok : Token) (st : LexState)
    (alt : Bool) : MLCResult :=
  mlcLoop fuel tok { st with pos := st.pos + 2, col := st.col + 2 } alt

/-- The exponent-digit loop at the end of Lexer::lexFloatLiteral: decimal
digits and numeric separators; anything else ends the FloatLiteral. -/
def expLoop : Nat → Token → LexState → Nat → Nat → Bool → LexResult
  | 0, tok, st, _, _, _ => .spin tok st
  | fuel + 1, tok, st, sp, sc, alt =>
    let b := byteAt st.buf st.pos
    if isDigitB b then
      expLoop fuel tok { st with pos := st.pos + 1, col := st.col + 1 } sp sc alt
    else if b = 95 then
      if isDigitB (byteAt st.buf (st.pos + 1)) then
        expLoop fuel tok { st with pos := st.pos + 2, col := st.col + 2 } sp sc alt
      else
        let st := diagnoseInvalidNumericSeparator st
        let t := tok.set5 .FloatLiteral st.line sc alt
                   (lexeme st.buf sp (st.pos - sp))
        -- Consume the underscore: the code advances only the pointer here.
        .ret t { st with pos := st.pos + 1 }
    else
      .ret (tok.set5 .FloatLiteral st.line sc alt
              (lexeme st.buf sp (st.pos - sp))) st

/-- The part of Lexer::lexFloatLiteral after the leading do-while: the check
for the exponent prefix, the optional sign, and the exponent loop. -/
def floatExpPhase (fuel : Nat) (tok : Token) (st : LexState) (sp sc : Nat)
    (alt : Bool) : LexResult :=
  if byteAt st.buf st.pos ≠ 101 ∧ byteAt st.buf st.pos ≠ 69 then
    .ret (tok.set5 .FloatLiteral st.line sc alt
            (lexeme st.buf sp (st.pos - sp))) st
  else
    let st :=
      if byteAt st.buf (st.pos + 1) = 43 ∨ byteAt st.buf (st.pos + 1) = 45 then
        { st with pos := st.pos + 2, col := st.col + 2 }
      else { st with pos := st.pos + 1, col := st.col + 1 }
    expLoop fuel tok st sp sc alt

/-- Lexer::lexFloatLiteral: entered with the pointer at the floating point
(or at the byte the do-while should consume first); `sp`/`sc` are the
literal's start position and start column.  The do-while consumes one byte
unconditionally and then every decimal digit, then the exponent phase runs. -/
def lexFloatLiteral (fuel : Nat) (tok : Token) (st : LexState) (sp sc : Nat)
    (alt : Bool) : LexResult :=
  let n := digitRun st.buf (st.pos + 1)
  floatExpPhase fuel tok
    { st with pos := st.pos + 1 + n, col := st.col + 1 + n } sp sc alt

/-- The digit/separator loop of Lexer::lexNumericLiteral. -/
def decLoop : Nat → Token → LexState → Nat → Nat → Bool → LexResult
  | 0, tok, st, _, _, _ => .spin tok st
  | fuel + 1, tok, st, sp, sc, alt =>
    let b := byteAt st.buf st.pos
    if isDigitB b then
      decLoop fuel tok { st with pos := st.pos + 1, col := st.col + 1 } sp sc alt
    else if b = 95 then
      if isDigitB (byteAt st.buf (st.pos + 1)) then
        decLoop fuel tok { st with pos := st.pos + 2, col := st.col + 2 } sp sc alt
      else
        let st := diagnoseInvalidNumericSeparator st
        let t := tok.set5 .DecimalLiteral st.line sc alt
                   (lexeme st.buf sp (st.pos - sp))
        -- Consume the underscore: the code advances only the pointer here.
        .ret t { st with pos := st.pos + 1 }
    else if b = 110 then
      let t := tok.set5 .DecimalBigIntLiteral st.line sc alt
                 (lexeme st.buf sp (st.pos - sp))
      .ret t { st with pos := st.pos + 1, col := st.col + 1 }
    else if b = 46 then
      lexFloatLiteral fuel tok st sp sc alt
    else
      .ret (tok.set5 .DecimalLiteral st.line sc alt
              (lexeme st.buf sp (st.pos - sp))) st

/-- Lexer::lexNumericLiteral: entered with the pointer at the first digit
(1-9); record the start, consume it, then loop. -/
def lexNumericLiteral (fuel : Nat) (tok : Token) (st : LexState)
    (alt : Bool) : LexResult :=
  decLoop fuel tok { st with pos := st.pos + 1, col := st.col + 1 }
    st.pos st.col alt

/-- The digit/separator/suffix loop of Lexer::lexHexNumericLiteral. -/
def hexLoop : Nat → Token → LexState → Nat → Nat → Bool → LexResult
  | 0, tok, st, _, _, _ => .spin tok st
  | fuel + 1, tok, st, sp, sc, alt =>
    let b := byteAt st.buf st.pos
    if isHexDigitB b then
      hexLoop fuel tok { st with pos := st.pos + 1, col := st.col + 1 } sp sc alt
    else if b = 95 then
      if isHexDigitB (byteAt st.buf (st.pos + 1)) then
        hexLoop fuel tok { st with pos := st.pos + 2, col := st.col + 2 } sp sc alt
      else
        let st := diagnoseInvalidNumericSeparator st
        let t := tok.set5 .HexLiteral st.line sc alt
                   (lexeme st.buf sp (st.pos - sp))
        .ret t { st with pos := st.pos + 1, col := st.col + 1 }
    else if b = 110 then
      let t := tok.set5 .HexBigIntLiteral st.line sc alt
                 (lexeme st.buf sp (st.pos - sp))
      .ret t { st with pos := st.pos + 1, col := st.col + 1 }
    else
      .ret (tok.set5 .HexLiteral st.line sc alt
              (lexeme st.buf sp (st.pos - sp))) st

/-- Lexer::lexHexNumericLiteral: consume the 0x prefix; the next byte must
be a hex digit, else diagnose and return a placeholder ZeroLiteral with the
bytes after the prefix left unconsumed. -/
def lexHexNumericLiteral (fuel : Nat) (tok : Token) (st : LexState)
    (alt : Bool) : LexResult :=
  let sc := st.col
  let st := { st with pos := st.pos + 2, col := st.col + 2 }
  let sp := st.pos
  if isHexDigitB (byteAt st.buf st.pos) = false then
    let st := diagnoseMalformedRadixInt st
    .ret (tok.set4 .ZeroLiteral st.line sc alt) st
  else
    hexLoop fuel tok { st with pos := st.pos + 1, col := st.col + 1 } sp sc alt

/-- The digit/separator/suffix loop of Lexer::lexOctalNumericLiteral. -/
def octLoop : Nat → Token → LexState → Nat → Nat → Bool → LexResult
  | 0, tok, st, _, _, _ => .spin tok st
  | fuel + 1, tok, st, sp, sc, alt =>
    let b := byteAt st.buf st.pos
    if isOctalDigitB b then
      octLoop fuel tok { st with pos := st.pos + 1, col := st.col + 1 } sp sc alt
    else if b = 95 then
      if isOctalDigitB (byteAt st.buf (st.pos + 1)) then
        octLoop fuel tok { st with pos := st.pos + 2, col := st.col + 2 } sp sc alt
      else
        let st := diagnoseInvalidNumericSeparator st
        let t := tok.set5 .OctalLiteral st.line sc alt
                   (lexeme st.buf sp (st.pos - sp))
        .ret t { st with pos := st.pos + 1, col := st.col + 1 }
    else if b = 110 then
      let t := tok.set5 .OctalBigIntLiteral st.line sc alt
                 (lexeme st.buf sp (st.pos - sp))
      .ret t { st with pos := st.pos + 1, col := st.col + 1 }
    else
      .ret (tok.set5 .OctalLiteral st.line sc alt
              (lexeme st.buf sp (st.pos - sp))) st

/-- Lexer::lexOctalNumericLiteral: consume the 0o prefix; the next byte must
be an octal digit, else diagnose and return a placeholder ZeroLiteral. -/
def lexOctalNumericLiteral (fuel : Nat) (tok : Token) (st : LexState)
    (alt : Bool) : LexResult :=
  let sc := st.col
  let st := { st with pos := st.pos + 2, col := st.col + 2 }
  let sp := st.pos
  if isOctalDigitB (byteAt st.buf st.pos) = false then
    let st := diagnoseMalformedRadixInt st
    .ret (tok.set4 .ZeroLiteral st.line sc alt) st
  else
    octLoop fuel tok { st with pos := st.pos + 1, col := st.col + 1 } sp sc alt

/-- The digit/separator/suffix loop of Lexer::lexBinaryNumericLiteral. -/
def binLoop : Nat → Token → LexState → Nat → Nat → Bool → LexResult
  | 0, tok, st, _, _, _ => .spin tok st
  | fuel + 1, tok, st, sp, sc, alt =>
    let b := byteAt st.buf st.pos
    if isBinaryDigitB b then
      binLoop fuel tok { st with pos := st.pos + 1, col := st.col + 1 } sp sc alt
    else if b = 95 then
      if isBinaryDigitB (byteAt st.buf (st.pos + 1)) then
        binLoop fuel tok { st with pos := st.pos + 2, col := st.col + 2 } sp sc alt
      else
        let st := diagnoseInvalidNumericSeparator st
        let t := tok.set5 .BinaryLiteral st.line sc alt
                   (lexeme st.buf sp (st.pos - sp))
        .ret t { st with pos := st.pos + 1, col := st.col + 1 }
    else if b = 110 then
      let t := tok.set5 .BinaryBigIntLiteral st.line sc alt
                 (lexeme st.buf sp (st.pos - sp))
      .ret t { st with pos := st.pos + 1, col := st.col + 1 }
    else
      .ret (tok.set5 .BinaryLiteral st.line sc alt
              (lexeme st.buf sp (st.pos - sp))) st

/-- Lexer::lexBinaryNumericLiteral: consume the 0b prefix; the next byte
must be a binary digit, else diagnose and return a placeholder ZeroLiteral. -/
def lexBinaryNumericLiteral (fuel : Nat) (tok : Token) (st : LexState)
    (alt : Bool) : LexResult :=
  let sc := st.col
  let st := { st with pos := st.pos + 2, col := st.col + 2 }
  let sp := st.pos
  if isBinaryDigitB (byteAt st.buf st.pos) = false then
    let st := diagnoseMalformedRadixInt st
    .ret (tok.set4 .ZeroLiteral st.line sc alt) st
  else
    binLoop fuel tok { st with pos := st.pos + 1, col := st.col + 1 } sp sc alt

/-- The digit/separator loop of Lexer::lexLegacyOctalLiteral.  On the end of
the literal the token is set first; only then, if strict mode is on, the
legacy-octal diagnostic is printed and the sticky flag set. -/
def legacyOctLoop : Nat → Token → LexState → Nat → Nat → Bool → LexResult
  | 0, tok, st, _, _, _ => .spin tok st
  | fuel + 1, tok, st, sp, sc, alt =>
    let b := byteAt st.buf st.pos
    if isOctalDigitB b then
      legacyOctLoop fuel tok { st with pos := st.pos + 1, col := st.col + 1 } sp sc alt
    else if b = 95 then
      if isOctalDigitB (byteAt st.buf (st.pos + 1)) then
        legacyOctLoop fuel tok { st with pos := st.pos + 2, col := st.col + 2 } sp sc alt
      else
        let st := diagnoseInvalidNumericSeparator st
        let t := tok.set5 .OctalLiteral st.line sc alt
                   (lexeme st.buf sp (st.pos - sp))
        .ret t { st with pos := st.pos + 1, col := st.col + 1 }
    else
      let t := tok.set5 .OctalLiteral st.line sc alt
                 (lexeme st.buf sp (st.pos - sp))
      if st.strict then
        .ret t { st with diags := st.diags ++ [.legacyOctalStrict],
                         failed := true }
      else .ret t st

/-- Lexer::lexLegacyOctalLiteral: entered with the pointer at the leading
zero; the lexeme starts just past it, the start column at the zero. -/
def lexLegacyOctalLiteral (fuel : Nat) (tok : Token) (st : LexState)
    (alt : Bool) : LexResult :=
  let sp := st.pos + 1
  let sc := st.col
  legacyOctLoop fuel tok { st with pos := st.pos + 2, col := st.col + 2 }
    sp sc alt

/-- The scanning loop of Lexer::lexDoubleQuoteStrLiteral: note there is no
end-of-buffer check, and the sentinel 0 counts as an ASCII byte. -/
def dqLoop : Nat → Token → LexState → Nat → Nat → Bool → LexResult
  | 0, tok, st, _, _, _ => .spin tok st
  | fuel + 1, tok, st, sp, sc, alt =>
    if byteAt st.buf st.pos = 34 then
      .ret (tok.set5 .StringLiteral st.line sc alt
              (lexeme st.buf sp (st.pos - sp)))
        { st with pos := st.pos + 1, col := st.col + 1 }
    else if isAscii (byteAt st.buf st.pos) then
      dqLoop fuel tok { st with pos := st.pos + 1, col := st.col + 1 } sp sc alt
    else
      match utf8DecodeStrict st.buf st.buf.length st.pos with
      | none => dqLoop fuel tok (diagnoseInvalidUTF8 st) sp sc alt
      | some (_, size) =>
        dqLoop fuel tok { st with pos := st.pos + size, col := st.col + 1 }
          sp sc alt

/-- Lexer::lexDoubleQuoteStrLiteral. -/
def lexDoubleQuoteStrLiteral (fuel : Nat) (tok : Token) (st : LexState)
    (alt : Bool) : LexResult :=
  dqLoop fuel tok { st with pos := st.pos + 1, col := st.col + 1 }
    (st.pos + 1) st.col alt

/-- The scanning loop of Lexer::lexSingleQuoteStrLiteral. -/
def sqLoop : Nat → Token → LexState → Nat → Nat → Bool → LexResult
  | 0, tok, st, _, _, _ => .spin tok st
  | fuel + 1, tok, st, sp, sc, alt =>
    if byteAt st.buf st.pos = 39 then
      .ret (tok.set5 .StringLiteral st.line sc alt
              (lexeme st.buf sp (st.pos - sp)))
        { st with pos := st.pos + 1, col := st.col + 1 }
    else if isAscii (byteAt st.buf st.pos) then
      sqLoop fuel tok { st with pos := st.pos + 1, col := st.col + 1 } sp sc alt
    else
      match utf8DecodeStrict st.buf st.buf.length st.pos with
      | none => sqLoop fuel tok (diagnoseInvalidUTF8 st) sp sc alt
      | some (_, size) =>
        sqLoop fuel tok { st with pos := st.pos + size, col := st.col + 1 }
          sp sc alt

/-- Lexer::lexSingleQuoteStrLiteral. -/
def lexSingleQuoteStrLiteral (fuel : Nat) (tok : Token) (st : LexState)
    (alt : Bool) : LexResult :=
  sqLoop fuel tok { st with pos := st.pos + 1, col := st.col + 1 }
    (st.pos + 1) st.col alt

/-- A punctuator case of the dispatch switch that consumes `n` bytes:
the token keeps the pre-advance column, then ptr and col move by `n`. -/
def punct (tok : Token) (st : LexState) (alt : Bool) (k : TokenKind)
    (n : Nat) : LexResult :=
  .ret (tok.set4 k st.line st.col alt)
    { st with pos := st.pos + n, col := st.col + n }

/-- The body of Lexer::lexToken from the `beginLexer` label down: skip
horizontal whitespace, then the byte-dispatch switch; `goto beginLexer`
becomes a fuel-consuming recursive call.  A byte matching no case falls off
the end of the switch: the function returns with the token slot unwritten
(`LexResult.fallOff`). -/
def lexTokenLoop : Nat → Token → LexState → Bool → LexResult
  | 0, tok, st, _ => .spin tok st
  | fuel + 1, tok, st0, alt =>
    let st := skipHorizWs st0
    let b := byteAt st.buf st.pos
    let b1 := byteAt st.buf (st.pos + 1)
    let b2 := byteAt st.buf (st.pos + 2)
    let b3 := byteAt st.buf (st.pos + 3)
    if b = 0 then
      if st.pos = st.buf.length then
        .ret (tok.set4 .FileEnd st.line st.col alt) st
      else lexTokenLoop fuel tok (diagnoseUnexpectedNull st) alt
    else if b = 10 then
      lexTokenLoop fuel tok
        { st with line := st.line + 1, col := 1, pos := st.pos + 1 } true
    else if b = 13 then
      let st := { st with line := st.line + 1, col := 1 }
      let st := if byteAt st.buf (st.pos + 1) = 10 then
                  { st with pos := st.pos + 2 }
                else { st with pos := st.pos + 1 }
      lexTokenLoop fuel tok st true
    else if b = 123 then punct tok st alt .LeftCurly 1
    else if b = 125 then punct tok st alt .RightCurly 1
    else if b = 40 then punct tok st alt .LeftParenthasis 1
    else if b = 41 then punct tok st alt .RightParenthasis 1
    else if b = 91 then punct tok st alt .LeftSquare 1
    else if b = 93 then punct tok st alt .RightSquare 1
    else if b = 59 then punct tok st alt .Semicolon 1
    else if b = 44 then punct tok st alt .Comma 1
    else if b = 58 then punct tok st alt .Colon 1
    else if b = 46 then
      if b1 = 46 ∧ b2 = 46 then punct tok st alt .DotDotDot 3
      else punct tok st alt .Dot 1
    else if b = 60 then
      if b1 = 61 then punct tok st alt .LessEquals 2
      else if b1 = 60 then
        if b2 = 61 then punct tok st alt .LessLessEquals 3
        else punct tok st alt .LessLess 2
      else if b1 = 47 then punct tok st alt .LessSlash 2
      else punct tok st alt .Less 1
    else if b = 62 then
      if b1 = 61 then punct tok st alt .GreaterEquals 2
      else if b1 = 62 then
        if b2 = 62 then
          if b3 = 61 then punct tok st alt .GreaterGreaterGreaterEquals 4
          else punct tok st alt .GreaterGreaterGreater 3
        else if b2 = 61 then punct tok st alt .GreaterGreaterEquals 3
        else punct tok st alt .GreaterGreater 2
      else punct tok st alt .Greater 1
    else if b = 61 then
      if b1 = 61 then
        if b2 = 61 then punct tok st alt .EqualsEqualsEquals 3
        else punct tok st alt .EqualsEquals 2
      else if b1 = 62 then punct tok st alt .EqualsGreater 2
      else punct tok st alt .Equals 1
    else if b = 33 then
      if b1 = 61 then
        if b2 = 61 then punct tok st alt .ExclaimationEqualsEquals 3
        else punct tok st alt .ExclaimationEquals 2
      else punct tok st alt .Exclaimation 1
    else if b = 43 then
      if b1 = 43 then punct tok st alt .PlusPlus 2
      else if b1 = 61 then punct tok st alt .PlusEquals 2
      else punct tok st alt .Plus 1
    else if b = 45 then
      if b1 = 45 then punct tok st alt .MinusMinus 2
      else if b1 = 61 then punct tok st alt .MinusEquals 2
      else punct tok st alt .Minus 1
    else if b = 42 then
      if b1 = 42 then
        if b2 = 61 then punct tok st alt .AsteriskAsteriskEquals 3
        else punct tok st alt .AsteriskAsterisk 2
      else if b1 = 61 then punct tok st alt .AsteriskEquals 2
      else punct tok st alt .Asterisk 1
    else if b = 47 then
      if b1 = 61 then punct tok st alt .SlashEquals 2
      else if b1 = 47 then
        match lexSingleLineComment fuel tok st alt with
        -- Single-line comments end at a line terminator, so the flag is
        -- set unconditionally before dispatch restarts.
        | .cont st1 => lexTokenLoop fuel tok st1 true
        | .done t st1 => .ret t st1
        | .spin st1 => .spin tok st1
      else if b1 = 42 then
        match lexMultiLineComment fuel tok st alt with
        | .cont st1 alt1 => lexTokenLoop fuel tok st1 alt1
        | .done t st1 => .ret t st1
        | .spin st1 => .spin tok st1
      else punct tok st alt .Slash 1
    else if b = 37 then
      if b1 = 61 then punct tok st alt .PercentEquals 2
      else punct tok st alt .Percent 1
    else if b = 38 then
      if b1 = 61 then punct tok st alt .AmpersandEquals 2
      else if b1 = 38 then
        if b2 = 61 then punct tok st alt .AmpersandAmpersandEquals 3
        else punct tok st alt .AmpersandAmpersand 2
      else punct tok st alt .Ampersand 1
    else if b = 124 then
      if b1 = 61 then punct tok st alt .BarEquals 2
      else if b1 = 124 then
        if b2 = 61 then punct tok st alt .BarBarEquals 3
        else punct tok st alt .BarBar 2
      else punct tok st alt .Bar 1
    else if b = 94 then
      if b1 = 61 then punct tok st alt .CaretEquals 2
      else punct tok st alt .Caret 1
    else if b = 126 then punct tok st alt .Tilde 1
    else if b = 63 then
      if b1 = 63 then
        if b2 = 61 then punct tok st alt .QuestionQuestionEquals 3
        else punct tok st alt .QuestionQuestion 2
      else if b1 = 46 then punct tok st alt .QuestionDot 2
      else
        -- The plain-question case: tok.set(Question, line, col++) then ++col
        -- and return.  The pointer is never advanced on this path.
        .ret (tok.set4 .Question st.line st.col alt)
          { st with col := st.col + 2 }
    else if 49 ≤ b ∧ b ≤ 57 then
      lexNumericLiteral fuel tok st alt
    else if b = 48 then
      if b1 = 46 then
        -- lexFloatLiteral(tok, ptr++, col++, alt): the old pointer/column
        -- are the literal start, then both advance before the call.
        lexFloatLiteral fuel tok
          { st with pos := st.pos + 1, col := st.col + 1 } st.pos st.col alt
      else if b1 = 120 ∨ b1 = 88 then lexHexNumericLiteral fuel tok st alt
      else if b1 = 79 ∨ b1 = 111 then lexOctalNumericLiteral fuel tok st alt
      else if b1 = 98 ∨ b1 = 66 then lexBinaryNumericLiteral fuel tok st alt
      else if b1 = 110 then
        .ret (tok.set4 .ZeroBigIntLiteral st.line st.col alt)
          { st with pos := st.pos + 2, col := st.col + 2 }
      else if 48 ≤ b1 ∧ b1 ≤ 55 then lexLegacyOctalLiteral fuel tok st alt
      else
        -- The plain-zero case: tok.set(ZeroLiteral, line, col) and return.
        -- Neither the pointer nor the column is advanced on this path.
        .ret (tok.set4 .ZeroLiteral st.line st.col alt) st
    else if b = 34 then lexDoubleQuoteStrLiteral fuel tok st alt
    else if b = 39 then lexSingleQuoteStrLiteral fuel tok st alt
    else .fallOff tok st

/-- Lexer::lexToken: the local afterLineTerminator flag starts false. -/
def lexToken (fuel : Nat) (tok : Token) (st : LexState) : LexResult :=
  lexTokenLoop fuel tok st false

/-- The Lexer constructor: position the scanner at the first content byte
after an optional UTF-8 byte-order mark, with line 1, column 1. -/
def initLexer (buf : List Nat) (strict : Bool) : LexState :=
  { buf := buf
  , pos := if buf.take 3 = [0xEF, 0xBB, 0xBF] then 3 else 0
  , line := 1, col := 1, failed := false, strict := strict, diags := [] }

/-- An arbitrary starting content of the caller's token slot (the slot is
default-constructed and uninitialized in the C++ driver). -/
def tok0 : Token := ⟨.FileEnd, 0, 0, [], false⟩

theorem byteAt_drop (buf : List Nat) (p : Nat) :
    byteAt buf p = (buf.drop p).headD 0 := by
  induction buf generalizing p with
  | nil => cases p <;> simp [byteAt]
  | cons a l ih =>
    cases p with
    | zero => simp [byteAt]
    | succ n => simp [byteAt, List.getD]

theorem wsRun_zero {buf : List Nat} {p : Nat}
    (h : isHorizontalWhitespace (byteAt buf p) = false) : wsRun buf p = 0 := by
  unfold wsRun
  rw [byteAt_drop] at h
  cases hd : buf.drop p with
  | nil => simp
  | cons a l =>
    rw [hd] at h
    simp only [List.headD_cons] at h
    simp [List.takeWhile_cons, h]

theorem skipHorizWs_eq_self {st : LexState}
    (h : isHorizontalWhitespace (byteAt st.buf st.pos) = false) :
    skipHorizWs st = st := by
  simp [skipHorizWs, wsRun_zero h]

theorem byteAt_end {buf : List Nat} {p : Nat} (h : buf.length ≤ p) :
    byteAt buf p = 0 := by
  simp [byteAt, List.getD_eq_getElem?_getD, List.getElem?_eq_none h]

/-- C1, counterexample: the claim says every call to lexToken terminates
with the caller's token slot holding a well-defined token, including when
the leading byte has no matching dispatch case.  On the buffer consisting
of the single byte 0x40, the at-sign, lexToken returns without any
`tok.set` call: the token slot is left exactly as it was (undefined on the
first call), refuting the claim. -/
theorem lexToken_at_sign_slot_not_written :
    lexToken 10 tok0 (initLexer [64] true) =
      .fallOff tok0 (initLexer [64] true) ∧
    (lexToken 10 tok0 (initLexer [64] true)).isWritten = false := by
  exact ⟨rfl, rfl⟩

/-- C1 (amended): on a leading byte with no dispatch case — at-sign 0x40,
hash 0x23, backtick 0x60, a letter 0x61, or a non-ASCII byte 0xE2 at top
level — lexToken returns immediately with the token slot unwritten and the
scanner state unchanged, whatever the slot held before and whatever fuel
is supplied. -/
theorem lexToken_unmatched_byte_returns_without_writing :
    (∀ (tok : Token) (fuel : Nat),
      lexTokenLoop (fuel + 1) tok (initLexer [64] true) false =
        .fallOff tok (initLexer [64] true)) ∧
    (∀ (tok : Token) (fuel : Nat),
      lexTokenLoop (fuel + 1) tok (initLexer [35] true) false =
        .fallOff tok (initLexer [35] true)) ∧
    (∀ (tok : Token) (fuel : Nat),
      lexTokenLoop (fuel + 1) tok (initLexer [96] true) false =
        .fallOff tok (initLexer [96] true)) ∧
    (∀ (tok : Token) (fuel : Nat),
      lexTokenLoop (fuel + 1) tok (initLexer [97] true) false =
        .fallOff tok (initLexer [97] true)) ∧
    (∀ (tok : Token) (fuel : Nat),
      lexTokenLoop (fuel + 1) tok (initLexer [226, 128, 168] true) false =
        .fallOff tok (initLexer [226, 128, 168] true)) := by
  refine ⟨fun tok fuel => rfl, fun tok fuel => rfl, fun tok fuel => rfl,
    fun tok fuel => rfl, fun tok fuel => rfl⟩

/-- C2: evidence that lexToken does NOT always make forward progress.
On the buffer consisting of the single byte 0x30 the plain-zero case sets
a ZeroLiteral without advancing the pointer (final state equals the initial
state).  On the single byte 0x3F the plain-question case advances the
column twice but never the pointer.  On an embedded NUL the dispatch
restarts forever without moving the pointer: with fuel 7 the scan is still
at position 0 after seven unexpected-null diagnostics. -/
theorem lexToken_no_forward_progress_cases :
    lexToken 5 tok0 (initLexer [48] true) =
      .ret ⟨.ZeroLiteral, 1, 1, [], false⟩ (initLexer [48] true) ∧
    lexToken 5 tok0 (initLexer [63] true) =
      .ret ⟨.Question, 1, 1, [], false⟩
        ⟨[63], 0, 1, 3, false, true, []⟩ ∧
    lexToken 7 tok0 (initLexer [0, 97] true) =
      .spin tok0
        ⟨[0, 97], 0, 8, 8, true, true, List.replicate 7 .unexpectedNull⟩ := by
  exact ⟨rfl, rfl, rfl⟩

/-- C3: evidence that the pointer does NOT stay inside the buffer bounds
while a string literal is being scanned and the buffer ends before the
closing quote.  On the two-byte buffer 0x22 0x61 (a double quote followed
by the letter a, no closing quote) the string scanner treats the sentinel
NUL at the end of buffer as an ordinary ASCII byte and keeps advancing:
with fuel 6 the position has reached 6, strictly beyond the buffer length
2; the single-quote scanner behaves the same on 0x27 0x62. -/
theorem string_scan_runs_past_buffer_end :
    lexToken 6 tok0 (initLexer [34, 97] true) =
      .spin tok0 ⟨[34, 97], 6, 1, 7, false, true, []⟩ ∧
    ([34, 97] : List Nat).length <
      (lexToken 6 tok0 (initLexer [34, 97] true)).state.pos ∧
    lexToken 4 tok0 (initLexer [39, 98] true) =
      .spin tok0 ⟨[39, 98], 4, 1, 5, false, true, []⟩ ∧
    ([39, 98] : List Nat).length <
      (lexToken 4 tok0 (initLexer [39, 98] true)).state.pos := by
  exact ⟨rfl, by decide, rfl, by decide⟩

/-- C5: evidence that an embedded NUL is NOT handled as the claim states.
diagnoseUnexpectedNull leaves the pointer where it was, increments the
column, and increments the line (the claim requires pointer plus one and
line unchanged); consequently, restarting dispatch re-reads the same NUL
and the scan loops emitting the diagnostic forever instead of recovering:
on the buffer 0x00 0x61 with fuel 4 the scan is still at position 0 with
four diagnostics and the line counter at 5. -/
theorem embedded_null_not_recoverable :
    (∀ st : LexState,
      (diagnoseUnexpectedNull st).pos = st.pos ∧
      (diagnoseUnexpectedNull st).line = st.line + 1 ∧
      (diagnoseUnexpectedNull st).col = st.col + 1) ∧
    lexToken 4 tok0 (initLexer [0, 97] true) =
      .spin tok0
        ⟨[0, 97], 0, 5, 5, true, true, List.replicate 4 .unexpectedNull⟩ := by
  exact ⟨fun st => ⟨rfl, rfl, rfl⟩, rfl⟩

/-- C4, counterexample: the claim covers Unicode LS U+2028 (UTF-8 bytes
0xE2 0x80 0xA8) as a line terminator handled by lexToken between tokens.
In fact the top-level dispatch has no UTF-8 fallback path at all: on a
buffer holding exactly an LS, lexToken falls off the switch with the state
unchanged — the line counter stays 1 and the bytes are not consumed. -/
theorem lexToken_ls_not_treated_as_terminator :
    lexToken 10 tok0 (initLexer [226, 128, 168] true) =
      .fallOff tok0 (initLexer [226, 128, 168] true) ∧
    (lexToken 10 tok0 (initLexer [226, 128, 168] true)).state.line = 1 ∧
    (lexToken 10 tok0 (initLexer [226, 128, 168] true)).state.pos = 0 := by
  exact ⟨rfl, rfl, rfl⟩

/-- C4 (amended): for the ASCII line terminators encountered between
tokens — a line feed; a carriage return, with a carriage-return line-feed
pair consumed as a single unit advancing line by exactly 1 — lexToken
increments line by exactly 1, resets col to 1, sets the pending
after-line-terminator flag, and restarts dispatch without emitting the
terminator as a token.  (Unicode LS/PS receive this treatment only inside
the comment scanners; at top level they match no dispatch case.)  The
closing conjunct runs the full scanner on 0x0D 0x0A 0x7D: the first token
is the right curly at line 2, column 1, with the flag set — the pair was
counted once and never emitted. -/
theorem ascii_line_terminators_restart_dispatch :
    (∀ (fuel : Nat) (tok : Token) (st : LexState) (alt : Bool),
      byteAt st.buf st.pos = 10 →
      lexTokenLoop (fuel + 1) tok st alt =
        lexTokenLoop fuel tok
          { st with line := st.line + 1, col := 1, pos := st.pos + 1 } true) ∧
    (∀ (fuel : Nat) (tok : Token) (st : LexState) (alt : Bool),
      byteAt st.buf st.pos = 13 → byteAt st.buf (st.pos + 1) = 10 →
      lexTokenLoop (fuel + 1) tok st alt =
        lexTokenLoop fuel tok
          { st with line := st.line + 1, col := 1, pos := st.pos + 2 } true) ∧
    (∀ (fuel : Nat) (tok : Token) (st : LexState) (alt : Bool),
      byteAt st.buf st.pos = 13 → byteAt st.buf (st.pos + 1) ≠ 10 →
      lexTokenLoop (fuel + 1) tok st alt =
        lexTokenLoop fuel tok
          { st with line := st.line + 1, col := 1, pos := st.pos + 1 } true) ∧
    lexToken 10 tok0 (initLexer [13, 10, 125] true) =
      .ret ⟨.RightCurly, 2, 1, [], true⟩
        ⟨[13, 10, 125], 3, 2, 2, false, true, []⟩ := by
  refine ⟨?_, ?_, ?_, rfl⟩
  · intro fuel tok st alt h
    have hws : skipHorizWs st = st :=
      skipHorizWs_eq_self (by rw [h]; rfl)
    simp only [lexTokenLoop, hws, h]
    norm_num
  · intro fuel tok st alt h h1
    have hws : skipHorizWs st = st :=
      skipHorizWs_eq_self (by rw [h]; rfl)
    simp only [lexTokenLoop, hws, h, h1]
    norm_num
  · intro fuel tok st alt h h1
    have hws : skipHorizWs st = st :=
      skipHorizWs_eq_self (by rw [h]; rfl)
    simp only [lexTokenLoop, hws, h]
    norm_num
    simp [h1]

/-- C4, witness instantiating the amended theorem at a concrete state. -/
theorem ascii_line_terminators_restart_dispatch_witness :
    lexTokenLoop 4 tok0 ⟨[13, 10, 125], 0, 1, 1, false, true, []⟩ false =
      lexTokenLoop 3 tok0 ⟨[13, 10, 125], 2, 2, 1, false, true, []⟩ true :=
  ascii_line_terminators_restart_dispatch.2.1 3 tok0
    ⟨[13, 10, 125], 0, 1, 1, false, true, []⟩ false rfl rfl

/-- C8, counterexample: the claim says scanning any buffer to completion
yields FileEnd as the last token produced before the pointer stops
advancing.  On the single-byte buffer 0x30 the plain-zero case never
advances the pointer: the call returns a ZeroLiteral with the state equal
to the initial state, so a second call returns the identical ZeroLiteral
again — the pointer has stopped advancing, yet FileEnd is never produced. -/
theorem zero_buffer_never_reaches_file_end :
    lexToken 5 tok0 (initLexer [48] true) =
      .ret ⟨.ZeroLiteral, 1, 1, [], false⟩ (initLexer [48] true) ∧
    lexToken 5 ⟨.ZeroLiteral, 1, 1, [], false⟩ (initLexer [48] true) =
      .ret ⟨.ZeroLiteral, 1, 1, [], false⟩ (initLexer [48] true) ∧
    TokenKind.ZeroLiteral ≠ TokenKind.FileEnd := by
  exact ⟨rfl, rfl, by decide⟩

/-- C8 (amended): calling lexToken when the pointer has reached bufferEnd
produces a FileEnd token and leaves the whole scanner state — pointer and
position counters included — unchanged, so every subsequent call produces
FileEnd again: lexToken is idempotent at end-of-buffer.  (For buffers whose
scan reaches bufferEnd this makes FileEnd the last token produced; some
buffers, such as a lone plain zero, stop advancing before bufferEnd and
never produce FileEnd.) -/
theorem lexToken_idempotent_at_buffer_end
    (fuel : Nat) (tok : Token) (st : LexState) (alt : Bool)
    (h : st.pos = st.buf.length) :
    lexTokenLoop (fuel + 1) tok st alt =
      .ret (tok.set4 .FileEnd st.line st.col alt) st := by
  have hb : byteAt st.buf st.buf.length = 0 := byteAt_end (le_refl _)
  have hws : skipHorizWs st = st :=
    skipHorizWs_eq_self (by rw [h, hb]; rfl)
  simp only [lexTokenLoop, hws, h, hb]
  norm_num

/-- C8, witness instantiating the amended theorem at end-of-buffer. -/
theorem lexToken_idempotent_at_buffer_end_witness :
    lexTokenLoop 3 tok0 ⟨[59], 1, 1, 2, false, true, []⟩ false =
      .ret (tok0.set4 .FileEnd 1 2 false) ⟨[59], 1, 1, 2, false, true, []⟩ :=
  lexToken_idempotent_at_buffer_end 2 tok0
    ⟨[59], 1, 1, 2, false, true, []⟩ false rfl

/-- C6: a radix-prefixed numeric literal whose two-byte prefix is not
immediately followed by a valid digit of that radix produces the
malformed-radix diagnostic (setting the sticky flag), a placeholder
ZeroLiteral token, and terminates the literal right after the prefix: the
final position is exactly the prefix end, so every byte after the prefix
is left unconsumed for the next token.  Stated for the hexadecimal, octal
and binary scanners, plus a full-scanner run on the buffer 0x30 0x78 0x3B
(a bare 0x prefix followed by a semicolon, which stays unconsumed). -/
theorem malformed_radix_int_placeholder_zero :
    (∀ (fuel : Nat) (tok : Token) (st : LexState) (alt : Bool),
      isHexDigitB (byteAt st.buf (st.pos + 2)) = false →
      lexHexNumericLiteral fuel tok st alt =
        .ret (tok.set4 .ZeroLiteral st.line st.col alt)
          { st with pos := st.pos + 2, col := st.col + 2,
                    failed := true,
                    diags := st.diags ++ [.malformedRadixInt] }) ∧
    (∀ (fuel : Nat) (tok : Token) (st : LexState) (alt : Bool),
      isOctalDigitB (byteAt st.buf (st.pos + 2)) = false →
      lexOctalNumericLiteral fuel tok st alt =
        .ret (tok.set4 .ZeroLiteral st.line st.col alt)
          { st with pos := st.pos + 2, col := st.col + 2,
                    failed := true,
                    diags := st.diags ++ [.malformedRadixInt] }) ∧
    (∀ (fuel : Nat) (tok : Token) (st : LexState) (alt : Bool),
      isBinaryDigitB (byteAt st.buf (st.pos + 2)) = false →
      lexBinaryNumericLiteral fuel tok st alt =
        .ret (tok.set4 .ZeroLiteral st.line st.col alt)
          { st with pos := st.pos + 2, col := st.col + 2,
                    failed := true,
                    diags := st.diags ++ [.malformedRadixInt] }) ∧
    lexToken 5 tok0 (initLexer [48, 120, 59] true) =
      .ret ⟨.ZeroLiteral, 1, 1, [], false⟩
        ⟨[48, 120, 59], 2, 1, 3, true, true, [.malformedRadixInt]⟩ := by
  refine ⟨?_, ?_, ?_, rfl⟩
  · intro fuel tok st alt h
    simp [lexHexNumericLiteral, diagnoseMalformedRadixInt, h]
  · intro fuel tok st alt h
    simp [lexOctalNumericLiteral, diagnoseMalformedRadixInt, h]
  · intro fuel tok st alt h
    simp [lexBinaryNumericLiteral, diagnoseMalformedRadixInt, h]

/-- C6, witness instantiating the hexadecimal conjunct at the bare 0x. -/
theorem malformed_radix_int_placeholder_zero_witness :
    lexHexNumericLiteral 3 tok0 ⟨[48, 120, 59], 0, 1, 1, false, true, []⟩
        false =
      .ret (tok0.set4 .ZeroLiteral 1 1 false)
        ⟨[48, 120, 59], 2, 1, 3, true, true, [.malformedRadixInt]⟩ :=
  malformed_radix_int_placeholder_zero.1 3 tok0
    ⟨[48, 120, 59], 0, 1, 1, false, true, []⟩ false (by decide)

/-- C7: scanning the legacy octal literal 017 (bytes 0x30 0x31 0x37) with
strict mode on produces an OctalLiteral token (lexeme 17, the leading zero
excluded) plus exactly one diagnostic, the legacy-octal one, which only
sets the sticky failed flag: the token is identical to the one produced
with strict mode off, where zero diagnostics are emitted and the failed
flag stays clear. -/
theorem legacy_octal_strict_mode_diagnostic :
    lexToken 10 tok0 (initLexer [48, 49, 55] true) =
      .ret ⟨.OctalLiteral, 1, 1, [49, 55], false⟩
        ⟨[48, 49, 55], 3, 1, 4, true, true, [.legacyOctalStrict]⟩ ∧
    lexToken 10 tok0 (initLexer [48, 49, 55] false) =
      .ret ⟨.OctalLiteral, 1, 1, [49, 55], false⟩
        ⟨[48, 49, 55], 3, 1, 4, false, false, []⟩ := by
  exact ⟨rfl, rfl⟩

/-- C9: the four-argument Token::set overload never writes the text field —
for every token and every argument list it updates exactly kind, line, col
and afterLineTerminator, leaving text untouched.  Consequently a token
produced without a lexeme leaves the slot's text as whatever the
previously scanned token stored there: starting from a slot holding a
StringLiteral with text 0x68 0x69, the FileEnd token, a punctuator
(semicolon), the ZeroBigIntLiteral for 0n, and the placeholder ZeroLiteral
emitted after a malformed 0x prefix all carry that stale text through. -/
theorem set4_never_writes_text :
    (∀ (t : Token) (k : TokenKind) (l c : Nat) (b : Bool),
      (t.set4 k l c b).text = t.text ∧ (t.set4 k l c b).kind = k ∧
      (t.set4 k l c b).line = l ∧ (t.set4 k l c b).col = c ∧
      (t.set4 k l c b).afterLineTerminator = b) ∧
    lexToken 3 ⟨.StringLiteral, 9, 9, [104, 105], true⟩ (initLexer [] true) =
      .ret ⟨.FileEnd, 1, 1, [104, 105], false⟩ (initLexer [] true) ∧
    lexToken 3 ⟨.StringLiteral, 9, 9, [104, 105], true⟩ (initLexer [59] true) =
      .ret ⟨.Semicolon, 1, 1, [104, 105], false⟩
        ⟨[59], 1, 1, 2, false, true, []⟩ ∧
    lexToken 3 ⟨.StringLiteral, 9, 9, [104, 105], true⟩
        (initLexer [48, 110] true) =
      .ret ⟨.ZeroBigIntLiteral, 1, 1, [104, 105], false⟩
        ⟨[48, 110], 2, 1, 3, false, true, []⟩ ∧
    lexToken 3 ⟨.StringLiteral, 9, 9, [104, 105], true⟩
        (initLexer [48, 120] true) =
      .ret ⟨.ZeroLiteral, 1, 1, [104, 105], false⟩
        ⟨[48, 120], 2, 1, 3, true, true, [.malformedRadixInt]⟩ := by
  exact ⟨fun t k l c b => ⟨rfl, rfl, rfl, rfl, rfl⟩, rfl, rfl, rfl, rfl⟩

/-- C10, counterexample: the claim as frozen says that whenever the float
exponent prefix and its optional sign are not followed by any digit,
lexFloatLiteral emits no diagnostic.  On the buffer 1.5e+_; the sign is
followed by an underscore, not a digit, and the scan emits an
invalid-numeric-separator diagnostic and sets the sticky failed flag (the
FloatLiteral lexeme still ends at the sign, and the underscore is
consumed), refuting the no-diagnostic statement. -/
theorem float_exponent_separator_emits_diagnostic :
    lexToken 9 tok0 (initLexer [49, 46, 53, 101, 43, 95, 59] true) =
      .ret ⟨.FloatLiteral, 1, 1, [49, 46, 53, 101, 43], false⟩
        ⟨[49, 46, 53, 101, 43, 95, 59], 6, 1, 7, true, true,
          [.invalidNumericSeparator]⟩ ∧
    (lexToken 9 tok0
        (initLexer [49, 46, 53, 101, 43, 95, 59] true)).state.diags ≠ [] := by
  exact ⟨rfl, by decide⟩

/-- C10 (amended): when the float exponent prefix (e or E), after its
optional sign (+ or -), is followed by neither a digit nor a
numeric-separator underscore, the exponent phase of lexFloatLiteral emits
no diagnostic and still produces a FloatLiteral whose lexeme extends
through the consumed prefix and sign — stated both with a sign (first
conjunct) and without one (second conjunct).  When an underscore not
followed by a digit comes next instead, the invalid-numeric-separator
diagnostic is emitted, the sticky flag set, and the FloatLiteral lexeme
still extends through the prefix and sign with the underscore excluded but
consumed (third conjunct).  The final conjunct runs the full scanner on
1.5e+; and obtains a FloatLiteral with lexeme 1.5e+ and an empty
diagnostic list. -/
theorem float_exponent_without_digits :
    (∀ (fuel : Nat) (tok : Token) (st : LexState) (sp sc : Nat) (alt : Bool),
      (byteAt st.buf st.pos = 101 ∨ byteAt st.buf st.pos = 69) →
      (byteAt st.buf (st.pos + 1) = 43 ∨ byteAt st.buf (st.pos + 1) = 45) →
      isDigitB (byteAt st.buf (st.pos + 2)) = false →
      byteAt st.buf (st.pos + 2) ≠ 95 →
      floatExpPhase (fuel + 1) tok st sp sc alt =
        .ret (tok.set5 .FloatLiteral st.line sc alt
                (lexeme st.buf sp (st.pos + 2 - sp)))
          { st with pos := st.pos + 2, col := st.col + 2 }) ∧
    (∀ (fuel : Nat) (tok : Token) (st : LexState) (sp sc : Nat) (alt : Bool),
      (byteAt st.buf st.pos = 101 ∨ byteAt st.buf st.pos = 69) →
      byteAt st.buf (st.pos + 1) ≠ 43 → byteAt st.buf (st.pos + 1) ≠ 45 →
      isDigitB (byteAt st.buf (st.pos + 1)) = false →
      byteAt st.buf (st.pos + 1) ≠ 95 →
      floatExpPhase (fuel + 1) tok st sp sc alt =
        .ret (tok.set5 .FloatLiteral st.line sc alt
                (lexeme st.buf sp (st.pos + 1 - sp)))
          { st with pos := st.pos + 1, col := st.col + 1 }) ∧
    (∀ (fuel : Nat) (tok : Token) (st : LexState) (sp sc : Nat) (alt : Bool),
      (byteAt st.buf st.pos = 101 ∨ byteAt st.buf st.pos = 69) →
      (byteAt st.buf (st.pos + 1) = 43 ∨ byteAt st.buf (st.pos + 1) = 45) →
      byteAt st.buf (st.pos + 2) = 95 →
      isDigitB (byteAt st.buf (st.pos + 3)) = false →
      floatExpPhase (fuel + 1) tok st sp sc alt =
        .ret (tok.set5 .FloatLiteral st.line sc alt
                (lexeme st.buf sp (st.pos + 2 - sp)))
          { st with pos := st.pos + 3, col := st.col + 3,
                    failed := true,
                    diags := st.diags ++ [.invalidNumericSeparator] }) ∧
    lexToken 9 tok0 (initLexer [49, 46, 53, 101, 43, 59] true) =
      .ret ⟨.FloatLiteral, 1, 1, [49, 46, 53, 101, 43], false⟩
        ⟨[49, 46, 53, 101, 43, 59], 5, 1, 6, false, true, []⟩ := by
  refine ⟨?_, ?_, ?_, rfl⟩
  · intro fuel tok st sp sc alt he hs hd hu
    rcases he with he | he <;> rcases hs with hs | hs <;>
      simp [floatExpPhase, expLoop, he, hs, hd, hu]
  · intro fuel tok st sp sc alt he h43 h45 hd hu
    rcases he with he | he <;>
      simp [floatExpPhase, expLoop, he, h43, h45, hd, hu]
  · intro fuel tok st sp sc alt he hs h95 hd
    rcases he with he | he <;> rcases hs with hs | hs <;>
      simp [floatExpPhase, expLoop, diagnoseInvalidNumericSeparator,
        he, hs, h95, hd] <;>
      exact fun hx => absurd hx (by decide)

/-- C10, witness instantiating the exponent-phase conjunct at e+ followed
by a semicolon. -/
theorem float_exponent_without_digits_witness :
    floatExpPhase 4 tok0 ⟨[101, 43, 59], 0, 1, 1, false, true, []⟩ 0 1
        false =
      .ret (tok0.set5 .FloatLiteral 1 1 false (lexeme [101, 43, 59] 0 2))
        ⟨[101, 43, 59], 2, 1, 3, false, true, []⟩ :=
  float_exponent_without_digits.1 3 tok0
    ⟨[101, 43, 59], 0, 1, 1, false, true, []⟩ 0 1 false (Or.inl rfl)
    (Or.inl rfl) (by decide) (by decide)

end ntsc



